import Mathlib

/-!
Verification of the replica-set list aggregation
(src/src/app/backend/replicasetlist.go).

The Go code joins three collections — replication controllers ("replica
sets"), services and pods — into one enriched record per replica set.
Go maps from label keys to values are embedded as association lists
(`Labels`); Go slices are embedded as Lean lists; the accumulating
`for`/`append` loops are embedded as left folds that append, exactly as
the source mutates its accumulators.
-/

/-- A Go `map[string]string`, embedded as an association list.
Go map indexing (first match) is `lookupLabel`. -/
abbrev Labels := List (String × String)

/-- Go map indexing `m[k]`: `some v` when the key is present (the `ok`
of the two-value form), `none` when absent. -/
def lookupLabel : Labels → String → Option String
  | [], _ => none
  | (k, v) :: rest, key => if k == key then some v else lookupLabel rest key

/-- The metadata common to every Kubernetes API object used by the file:
name, namespace, labels, arbitrary string annotations and a creation
timestamp (an opaque value here, only ever copied verbatim). -/
structure ObjectMeta where
  Name : String
  Namespace : String
  Labels : List (String × String)
  Annotations : List (String × String)
  CreationTimestamp : Nat
deriving DecidableEq

/-- Alias so that a structure field can itself be named `ObjectMeta`,
as the Go API objects name their embedded metadata. -/
abbrev ObjectMetaType := ObjectMeta

/-- Pod lifecycle phase (`api.PodPhase`). -/
inductive PodPhase where
  | PodPending
  | PodRunning
  | PodSucceeded
  | PodFailed
  | PodUnknown
deriving DecidableEq

/-- `api.PodStatus`, restricted to the field the code reads. -/
structure PodStatus where
  Phase : PodPhase
deriving DecidableEq

/-- `api.Pod`, restricted to the fields the code reads. -/
structure Pod where
  ObjectMeta : ObjectMetaType
  Status : PodStatus
deriving DecidableEq

/-- `api.ServicePort`: a (port, protocol) pair, only copied verbatim. -/
structure ServicePort where
  Port : Int
  Protocol : String
deriving DecidableEq

/-- One load-balancer ingress entry: an externally reachable address. -/
structure LoadBalancerIngress where
  IP : String
deriving DecidableEq

/-- `api.LoadBalancerStatus`: the list of ingress entries. -/
structure LoadBalancerStatus where
  Ingress : List LoadBalancerIngress
deriving DecidableEq

/-- `api.ServiceStatus`, restricted to the field the code reads. -/
structure ServiceStatus where
  LoadBalancer : LoadBalancerStatus
deriving DecidableEq

/-- `api.ServiceSpec`, restricted to the fields the code reads. -/
structure ServiceSpec where
  Selector : Labels
  Ports : List ServicePort
deriving DecidableEq

/-- `api.Service`, restricted to the fields the code reads. -/
structure Service where
  ObjectMeta : ObjectMetaType
  Spec : ServiceSpec
  Status : ServiceStatus
deriving DecidableEq

/-- One container of the pod template; the code reads only its image. -/
structure Container where
  Image : String
deriving DecidableEq

/-- The pod spec of the controller's pod template. -/
structure PodSpec where
  Containers : List Container
deriving DecidableEq

/-- The controller's pod template. -/
structure PodTemplateSpec where
  Spec : PodSpec
deriving DecidableEq

/-- `api.ReplicationControllerSpec`, restricted to the fields the code
reads: declared target replica count, label selector, pod template. -/
structure ReplicationControllerSpec where
  Replicas : Int
  Selector : Labels
  Template : PodTemplateSpec
deriving DecidableEq

/-- `api.ReplicationControllerStatus`: declared current replica count. -/
structure ReplicationControllerStatus where
  Replicas : Int
deriving DecidableEq

/-- `api.ReplicationController` (a "replica set"), restricted to the
fields the code reads. -/
structure ReplicationController where
  ObjectMeta : ObjectMetaType
  Spec : ReplicationControllerSpec
  Status : ReplicationControllerStatus
deriving DecidableEq

/-- `ReplicaSetPodInfo`: aggregate pod information of one replica set.
Field `Curret` keeps the source's (misspelled) name. -/
structure ReplicaSetPodInfo where
  Curret : Int
  Desired : Int
  Running : Int
  Waiting : Int
  Failed : Int
deriving DecidableEq

/-- Modelled from the spec: the `Endpoint` type is not under src/ (only
its uses are). Per the spec it carries a host/service name, a namespace
and a list of (port, protocol) pairs. -/
structure Endpoint where
  Host : String
  Namespace : String
  Ports : List ServicePort
deriving DecidableEq

/-- Modelled from the spec: `getInternalEndpoint` is not under src/.
Per the spec an internal endpoint is
`{name: service.name, namespace: service.namespace, ports: service.ports}`. -/
def getInternalEndpoint (name ns : String) (ports : List ServicePort) : Endpoint :=
  { Host := name, Namespace := ns, Ports := ports }

/-- Modelled from the spec: `getExternalEndpoint` is not under src/.
Per the spec an external endpoint is `{address: ingressEntry, ports:
service.ports}`; it has no namespace of its own (empty string). -/
def getExternalEndpoint (externalIP : LoadBalancerIngress) (ports : List ServicePort) : Endpoint :=
  { Host := externalIP.IP, Namespace := "", Ports := ports }

/-- Modelled from the spec: the well-known annotation key holding a
replica set's human-readable description; its constant is not under
src/. Only its identity matters to the code. -/
def DescriptionAnnotationKey : String := "description"

/-- `isLabelSelectorMatching` (replicasetlist.go:196-209): true when a
non-empty selector is wholly contained, key and value, in the tested
object's labels; an empty (or nil) selector matches nothing. -/
def isLabelSelectorMatching (labelSelector testedObjectLabels : Labels) : Bool :=
  if labelSelector.length == 0 then
    false
  else
    labelSelector.all fun kv =>
      match lookupLabel testedObjectLabels kv.1 with
      | some rsValue => rsValue == kv.2
      | none => false

/-- The filter condition of `getMatchingServices`: same namespace and
the service's selector matches the replica set's selector. -/
def serviceTargetsReplicaSet (replicaSet : ReplicationController) (service : Service) : Bool :=
  service.ObjectMeta.Namespace == replicaSet.ObjectMeta.Namespace &&
    isLabelSelectorMatching service.Spec.Selector replicaSet.Spec.Selector

/-- `getMatchingServices` (replicasetlist.go:180-192): the accumulating
loop over all services, appending each one in the replica set's
namespace whose selector matches the replica set's selector. -/
def getMatchingServices (services : List Service)
    (replicaSet : ReplicationController) : List Service :=
  services.foldl
    (fun matchingServices service =>
      if serviceTargetsReplicaSet replicaSet service then
        matchingServices ++ [service]
      else
        matchingServices)
    []

/-- The pod filter of `getReplicaSetPodInfo`: same namespace and the
replica set's selector matches the pod's labels. -/
def podBelongsToReplicaSet (replicaSet : ReplicationController) (pod : Pod) : Bool :=
  pod.ObjectMeta.Namespace == replicaSet.ObjectMeta.Namespace &&
    isLabelSelectorMatching replicaSet.Spec.Selector pod.ObjectMeta.Labels

/-- One iteration of the pod-scan loop of `getReplicaSetPodInfo`
(replicasetlist.go:162-174): a matched pod increments the counter of
its phase; the `switch` has no case for the remaining phases. -/
def podInfoStep (replicaSet : ReplicationController)
    (result : ReplicaSetPodInfo) (pod : Pod) : ReplicaSetPodInfo :=
  if podBelongsToReplicaSet replicaSet pod then
    match pod.Status.Phase with
    | PodPhase.PodRunning => { result with Running := result.Running + 1 }
    | PodPhase.PodPending => { result with Waiting := result.Waiting + 1 }
    | PodPhase.PodFailed => { result with Failed := result.Failed + 1 }
    | _ => result
  else
    result

/-- `getReplicaSetPodInfo` (replicasetlist.go:156-177): starts from the
declared current/desired counts (observed counters zero, as Go
zero-initializes them) and folds the pod-scan loop over all pods. -/
def getReplicaSetPodInfo (replicaSet : ReplicationController)
    (pods : List Pod) : ReplicaSetPodInfo :=
  pods.foldl (podInfoStep replicaSet)
    { Curret := replicaSet.Status.Replicas
      Desired := replicaSet.Spec.Replicas
      Running := 0
      Waiting := 0
      Failed := 0 }

/-- The output record `ReplicaSet` (replicasetlist.go:35-62). -/
structure ReplicaSet where
  Name : String
  Namespace : String
  Description : String
  Labels : List (String × String)
  Pods : ReplicaSetPodInfo
  ContainerImages : List String
  CreationTime : Nat
  InternalEndpoints : List Endpoint
  ExternalEndpoints : List Endpoint
deriving DecidableEq

/-- The output wrapper `ReplicaSetList` (replicasetlist.go:28-31). -/
structure ReplicaSetList where
  ReplicaSets : List ReplicaSet
deriving DecidableEq

/-- The endpoint loop of `getReplicaSetList` (replicasetlist.go:127-136):
over the matched services in order, append one internal endpoint per
service, and one external endpoint per load-balancer ingress entry
(the inner loop appends them in ingress-list order). -/
def endpointsOfServices (matchingServices : List Service) :
    List Endpoint × List Endpoint :=
  matchingServices.foldl
    (fun acc service =>
      (acc.1 ++ [getInternalEndpoint service.ObjectMeta.Name
        service.ObjectMeta.Namespace service.Spec.Ports],
       acc.2 ++ service.Status.LoadBalancer.Ingress.map
        (fun externalIP => getExternalEndpoint externalIP service.Spec.Ports)))
    ([], [])

/-- The body of the outer loop of `getReplicaSetList`
(replicasetlist.go:120-151): assemble the record of one replica set. -/
def buildReplicaSet (services : List Service) (pods : List Pod)
    (replicaSet : ReplicationController) : ReplicaSet :=
  let containerImages :=
    replicaSet.Spec.Template.Spec.Containers.map fun container => container.Image
  let matchingServices := getMatchingServices services replicaSet
  let endpoints := endpointsOfServices matchingServices
  let podInfo := getReplicaSetPodInfo replicaSet pods
  { Name := replicaSet.ObjectMeta.Name
    Namespace := replicaSet.ObjectMeta.Namespace
    Description := (lookupLabel replicaSet.ObjectMeta.Annotations DescriptionAnnotationKey).getD ""
    Labels := replicaSet.ObjectMeta.Labels
    Pods := podInfo
    ContainerImages := containerImages
    CreationTime := replicaSet.ObjectMeta.CreationTimestamp
    InternalEndpoints := endpoints.1
    ExternalEndpoints := endpoints.2 }

/-- `getReplicaSetList` (replicasetlist.go:115-154): starts from the
empty (made, non-nil) list and appends one assembled record per
replica set, in input order. -/
def getReplicaSetList (replicaSets : List ReplicationController)
    (services : List Service) (pods : List Pod) : ReplicaSetList :=
  { ReplicaSets :=
      replicaSets.foldl
        (fun acc replicaSet => acc ++ [buildReplicaSet services pods replicaSet])
        [] }

/-! ### Concrete example objects, used to instantiate the theorems -/

/-- Example object metadata (no annotations, timestamp 0). -/
def metaEx (name ns : String) (labels : Labels) : ObjectMeta :=
  { Name := name, Namespace := ns, Labels := labels, Annotations := [], CreationTimestamp := 0 }

/-- Example replication controller whose own labels equal its selector. -/
def rcEx (name ns : String) (selector : Labels) : ReplicationController :=
  { ObjectMeta := metaEx name ns selector
    Spec := { Replicas := 1, Selector := selector
              Template := { Spec := { Containers := [{ Image := "img" }] } } }
    Status := { Replicas := 1 } }

/-- Example service with one TCP port 80 and the given ingress addresses. -/
def svcEx (name ns : String) (selector : Labels) (ingress : List String) : Service :=
  { ObjectMeta := metaEx name ns []
    Spec := { Selector := selector, Ports := [{ Port := 80, Protocol := "TCP" }] }
    Status := { LoadBalancer := { Ingress := ingress.map (fun addr => { IP := addr }) } } }

/-- Example pod with the given labels and phase. -/
def podEx (name ns : String) (labels : Labels) (phase : PodPhase) : Pod :=
  { ObjectMeta := metaEx name ns labels, Status := { Phase := phase } }

/-! ### Shared characterization lemmas -/

/-- Folding an append-when over a list is appending the filtered list. -/
theorem foldl_append_if {α : Type} (p : α → Bool) (l : List α) (init : List α) :
    l.foldl (fun acc x => if p x then acc ++ [x] else acc) init = init ++ l.filter p := by
  induction l generalizing init with
  | nil => simp
  | cons x xs ih => cases h : p x <;> simp [List.foldl_cons, h, ih, List.filter_cons]

/-- Folding an append-of-image over a list is appending the mapped list. -/
theorem foldl_append_map {α β : Type} (f : α → β) (l : List α) (init : List β) :
    l.foldl (fun acc x => acc ++ [f x]) init = init ++ l.map f := by
  induction l generalizing init with
  | nil => simp
  | cons x xs ih => simp [List.foldl_cons, ih]

/-- The service-matching loop is the filter by `serviceTargetsReplicaSet`. -/
theorem getMatchingServices_eq_filter (services : List Service)
    (replicaSet : ReplicationController) :
    getMatchingServices services replicaSet
      = services.filter (serviceTargetsReplicaSet replicaSet) := by
  simpa [getMatchingServices] using
    foldl_append_if (serviceTargetsReplicaSet replicaSet) services []

/-- The record-assembly loop maps `buildReplicaSet` over the input order. -/
theorem getReplicaSetList_eq_map (replicaSets : List ReplicationController)
    (services : List Service) (pods : List Pod) :
    (getReplicaSetList replicaSets services pods).ReplicaSets
      = replicaSets.map (buildReplicaSet services pods) := by
  simpa [getReplicaSetList] using
    foldl_append_map (buildReplicaSet services pods) replicaSets []

/-- The internal endpoint one service contributes. -/
def internalEndpointOf (service : Service) : Endpoint :=
  getInternalEndpoint service.ObjectMeta.Name service.ObjectMeta.Namespace service.Spec.Ports

/-- The external endpoints one service contributes: one per ingress
entry, in ingress-list order, each carrying the service's ports. -/
def externalEndpointsOf (service : Service) : List Endpoint :=
  service.Status.LoadBalancer.Ingress.map fun externalIP =>
    getExternalEndpoint externalIP service.Spec.Ports

/-- The endpoint loop, started from any accumulator pair, appends the
mapped internal endpoints and the flattened external endpoints. -/
theorem endpointsOfServices_loop (l : List Service) (init : List Endpoint × List Endpoint) :
    l.foldl
      (fun acc service =>
        (acc.1 ++ [getInternalEndpoint service.ObjectMeta.Name
          service.ObjectMeta.Namespace service.Spec.Ports],
         acc.2 ++ service.Status.LoadBalancer.Ingress.map
          (fun externalIP => getExternalEndpoint externalIP service.Spec.Ports)))
      init
    = (init.1 ++ l.map internalEndpointOf, init.2 ++ l.flatMap externalEndpointsOf) := by
  induction l generalizing init with
  | nil => simp
  | cons s ss ih => simp [List.foldl_cons, ih, internalEndpointOf, externalEndpointsOf]

/-- The endpoint loop is a map and a flat map over the matched services. -/
theorem endpointsOfServices_eq (l : List Service) :
    endpointsOfServices l = (l.map internalEndpointOf, l.flatMap externalEndpointsOf) := by
  simpa [endpointsOfServices] using endpointsOfServices_loop l ([], [])

/-- How many pods of the list are matched by the replica set (namespace
and selector) and are in the given phase. -/
def matchedPodsWithPhase (replicaSet : ReplicationController) (pods : List Pod)
    (phase : PodPhase) : Nat :=
  (pods.filter fun pod =>
    podBelongsToReplicaSet replicaSet pod && pod.Status.Phase == phase).length

/-- The pod-scan loop, started from any partial result, leaves the
declared counts alone and adds the per-phase matched-pod counts. -/
theorem podInfo_foldl (replicaSet : ReplicationController) (pods : List Pod)
    (r : ReplicaSetPodInfo) :
    pods.foldl (podInfoStep replicaSet) r =
      { Curret := r.Curret
        Desired := r.Desired
        Running := r.Running + matchedPodsWithPhase replicaSet pods PodPhase.PodRunning
        Waiting := r.Waiting + matchedPodsWithPhase replicaSet pods PodPhase.PodPending
        Failed := r.Failed + matchedPodsWithPhase replicaSet pods PodPhase.PodFailed } := by
  induction pods generalizing r with
  | nil => simp [matchedPodsWithPhase]
  | cons pod rest ih =>
    rw [List.foldl_cons, ih]
    cases hb : podBelongsToReplicaSet replicaSet pod
    · simp [podInfoStep, hb, matchedPodsWithPhase, List.filter_cons]
    · cases hp : pod.Status.Phase <;>
        simp [podInfoStep, hb, hp, matchedPodsWithPhase, List.filter_cons] <;>
        omega

/-- Closed form of `getReplicaSetPodInfo`: declared counts verbatim,
observed counters equal to the per-phase matched-pod counts. -/
theorem getReplicaSetPodInfo_eq (replicaSet : ReplicationController) (pods : List Pod) :
    getReplicaSetPodInfo replicaSet pods =
      { Curret := replicaSet.Status.Replicas
        Desired := replicaSet.Spec.Replicas
        Running := (matchedPodsWithPhase replicaSet pods PodPhase.PodRunning : Int)
        Waiting := (matchedPodsWithPhase replicaSet pods PodPhase.PodPending : Int)
        Failed := (matchedPodsWithPhase replicaSet pods PodPhase.PodFailed : Int) } := by
  simpa [getReplicaSetPodInfo] using podInfo_foldl replicaSet pods
    { Curret := replicaSet.Status.Replicas
      Desired := replicaSet.Spec.Replicas
      Running := 0
      Waiting := 0
      Failed := 0 }

/-- At most every matched pod is counted: the three per-phase counts of
one list sum to at most its length. -/
theorem three_phase_counts_le (l : List Pod) :
    (l.filter fun pod => pod.Status.Phase == PodPhase.PodRunning).length +
    (l.filter fun pod => pod.Status.Phase == PodPhase.PodPending).length +
    (l.filter fun pod => pod.Status.Phase == PodPhase.PodFailed).length ≤ l.length := by
  induction l with
  | nil => simp
  | cons pod rest ih =>
    cases hp : pod.Status.Phase <;> simp [List.filter_cons, hp] <;> omega

/-! ### Claim theorems -/

/-- C1: for every non-empty selector S and label mapping L, matching
returns true iff every (key, value) pair of S is present with an
identical value in L; and prepending to L an entry whose key does not
occur in S never changes the result (containment, not equality). -/
theorem isLabelSelectorMatching_subset_check (S L : Labels) (hS : S ≠ []) :
    (isLabelSelectorMatching S L = true ↔ ∀ kv ∈ S, lookupLabel L kv.1 = some kv.2) ∧
    (∀ k v, (∀ kv ∈ S, kv.1 ≠ k) →
      isLabelSelectorMatching S ((k, v) :: L) = isLabelSelectorMatching S L) := by
  have hlen : (S.length == 0) = false := by
    cases S with
    | nil => exact absurd rfl hS
    | cons a as => rfl
  constructor
  · rw [isLabelSelectorMatching, hlen]
    simp only [Bool.false_eq_true, if_false, List.all_eq_true]
    constructor
    · intro h kv hkv
      have h2 := h kv hkv
      cases hl : lookupLabel L kv.1 with
      | none => rw [hl] at h2; simp at h2
      | some w =>
        rw [hl] at h2
        simp only [beq_iff_eq] at h2
        rw [h2]
    · intro h kv hkv
      rw [h kv hkv]
      simp
  · intro k v hk
    have hlook : ∀ kv ∈ S, lookupLabel ((k, v) :: L) kv.1 = lookupLabel L kv.1 := by
      intro kv hkv
      have hne : (k == kv.1) = false := beq_eq_false_iff_ne.mpr fun h => hk kv hkv h.symm
      simp [lookupLabel, hne]
    rw [isLabelSelectorMatching, isLabelSelectorMatching, hlen]
    simp only [Bool.false_eq_true, if_false]
    refine Bool.eq_iff_iff.mpr ?_
    rw [List.all_eq_true, List.all_eq_true]
    constructor <;> intro h kv hkv <;> have h2 := h kv hkv
    · rwa [hlook kv hkv] at h2
    · rwa [hlook kv hkv]

/-- Witness for C1: the selector `app=x` matches labels containing
`app=x`, and adding an unrelated key (`tier`) leaves the result
unchanged. -/
theorem isLabelSelectorMatching_subset_check_witness :
    isLabelSelectorMatching [("app", "x")] [("app", "x"), ("extra", "y")] = true ∧
    isLabelSelectorMatching [("app", "x")] [("tier", "db"), ("app", "x")]
      = isLabelSelectorMatching [("app", "x")] [("app", "x")] := by
  constructor
  · exact (isLabelSelectorMatching_subset_check [("app", "x")]
      [("app", "x"), ("extra", "y")] (by decide)).1.mpr (by decide)
  · exact (isLabelSelectorMatching_subset_check [("app", "x")]
      [("app", "x")] (by decide)).2 "tier" "db" (by decide)

/-- C2: an empty (or nil — Go's nil map also has length 0) selector
matches nothing, whatever the candidate labels are. -/
theorem isLabelSelectorMatching_empty (L : Labels) :
    isLabelSelectorMatching [] L = false := rfl

/-- C7: the summary's current and desired counts are the replica set's
declared status/spec replica counts, read verbatim, for every pod
collection — so the live pod scan never feeds them. -/
theorem podInfo_declared_counts_verbatim (replicaSet : ReplicationController)
    (pods : List Pod) :
    (getReplicaSetPodInfo replicaSet pods).Curret = replicaSet.Status.Replicas ∧
    (getReplicaSetPodInfo replicaSet pods).Desired = replicaSet.Spec.Replicas := by
  rw [getReplicaSetPodInfo_eq]
  exact ⟨rfl, rfl⟩

/-- C6: matching services is the stable filter of the input service
collection (hence the result keeps the input's relative order and is a
sublist, never re-sorted), and it is the empty list when no service
satisfies the namespace+selector condition. -/
theorem getMatchingServices_stable_filter (services : List Service)
    (replicaSet : ReplicationController) :
    getMatchingServices services replicaSet
      = services.filter (serviceTargetsReplicaSet replicaSet) ∧
    (getMatchingServices services replicaSet).Sublist services ∧
    ((∀ service ∈ services, serviceTargetsReplicaSet replicaSet service = false) →
      getMatchingServices services replicaSet = []) := by
  refine ⟨getMatchingServices_eq_filter services replicaSet, ?_, ?_⟩
  · rw [getMatchingServices_eq_filter]
    exact List.filter_sublist services
  · intro h
    rw [getMatchingServices_eq_filter]
    exact List.filter_eq_nil_iff.mpr fun s hs => by simp [h s hs]

/-- Witness for C6: a service with an empty selector matches no replica
set, so the matched-service list is the (present, empty) list. -/
theorem getMatchingServices_stable_filter_witness :
    getMatchingServices [svcEx "s" "ns" [] ["1.2.3.4"]] (rcEx "rs" "ns" [("app", "x")])
      = [] :=
  (getMatchingServices_stable_filter [svcEx "s" "ns" [] ["1.2.3.4"]]
    (rcEx "rs" "ns" [("app", "x")])).2.2 (by decide)

/-- C4: an object in a different namespace than the replica set never
matches, whatever its labels or selector: such a service is not in the
matched-service list and removing it from the service collection
changes nothing, and such a pod contributes to no pod-status counter. -/
theorem namespace_isolation (replicaSet : ReplicationController) (service : Service)
    (svcs1 svcs2 : List Service) (pod : Pod) (pods1 pods2 : List Pod)
    (hs : service.ObjectMeta.Namespace ≠ replicaSet.ObjectMeta.Namespace)
    (hp : pod.ObjectMeta.Namespace ≠ replicaSet.ObjectMeta.Namespace) :
    service ∉ getMatchingServices (svcs1 ++ service :: svcs2) replicaSet ∧
    getMatchingServices (svcs1 ++ service :: svcs2) replicaSet
      = getMatchingServices (svcs1 ++ svcs2) replicaSet ∧
    getReplicaSetPodInfo replicaSet (pods1 ++ pod :: pods2)
      = getReplicaSetPodInfo replicaSet (pods1 ++ pods2) := by
  have hsf : serviceTargetsReplicaSet replicaSet service = false := by
    have h := beq_eq_false_iff_ne.mpr hs
    simp [serviceTargetsReplicaSet, h]
  have hpf : podBelongsToReplicaSet replicaSet pod = false := by
    have h := beq_eq_false_iff_ne.mpr hp
    simp [podBelongsToReplicaSet, h]
  refine ⟨?_, ?_, ?_⟩
  · rw [getMatchingServices_eq_filter]
    intro hmem
    exact absurd ((List.mem_filter.mp hmem).2) (by simp [hsf])
  · rw [getMatchingServices_eq_filter, getMatchingServices_eq_filter]
    simp [List.filter_append, List.filter_cons, hsf]
  · rw [getReplicaSetPodInfo_eq, getReplicaSetPodInfo_eq]
    simp [matchedPodsWithPhase, List.filter_append, List.filter_cons, hpf]

/-- Witness for C4: a service and a pod in namespace other2/other never
match a replica set in namespace ns, labels notwithstanding. -/
theorem namespace_isolation_witness :
    svcEx "s" "other2" [("app", "x")] []
        ∉ getMatchingServices [svcEx "s" "other2" [("app", "x")] []]
            (rcEx "rs" "ns" [("app", "x")]) ∧
    getMatchingServices [svcEx "s" "other2" [("app", "x")] []]
        (rcEx "rs" "ns" [("app", "x")])
      = getMatchingServices [] (rcEx "rs" "ns" [("app", "x")]) ∧
    getReplicaSetPodInfo (rcEx "rs" "ns" [("app", "x")])
        [podEx "p" "other" [("app", "x")] PodPhase.PodRunning]
      = getReplicaSetPodInfo (rcEx "rs" "ns" [("app", "x")]) [] :=
  namespace_isolation (rcEx "rs" "ns" [("app", "x")])
    (svcEx "s" "other2" [("app", "x")] []) [] []
    (podEx "p" "other" [("app", "x")] PodPhase.PodRunning) [] []
    (by decide) (by decide)

/-- C3: the pod-status summary counts exactly the pods of the input
collection matched by namespace+selector, bucketed by phase (running,
pending as waiting, failed); any matched pod in another phase falls in
no bucket, so the three counters sum to at most the matched count. -/
theorem podInfo_phase_counts (replicaSet : ReplicationController) (pods : List Pod) :
    (getReplicaSetPodInfo replicaSet pods).Running
      = (((pods.filter (podBelongsToReplicaSet replicaSet)).filter
          fun pod => pod.Status.Phase == PodPhase.PodRunning).length : Int) ∧
    (getReplicaSetPodInfo replicaSet pods).Waiting
      = (((pods.filter (podBelongsToReplicaSet replicaSet)).filter
          fun pod => pod.Status.Phase == PodPhase.PodPending).length : Int) ∧
    (getReplicaSetPodInfo replicaSet pods).Failed
      = (((pods.filter (podBelongsToReplicaSet replicaSet)).filter
          fun pod => pod.Status.Phase == PodPhase.PodFailed).length : Int) ∧
    (getReplicaSetPodInfo replicaSet pods).Running
        + (getReplicaSetPodInfo replicaSet pods).Waiting
        + (getReplicaSetPodInfo replicaSet pods).Failed
      ≤ ((pods.filter (podBelongsToReplicaSet replicaSet)).length : Int) := by
  have hff : ∀ q : Pod → Bool,
      (pods.filter (podBelongsToReplicaSet replicaSet)).filter q
        = pods.filter fun pod => podBelongsToReplicaSet replicaSet pod && q pod := by
    intro q
    rw [List.filter_filter]
    exact List.filter_congr fun a _ => Bool.and_comm _ _
  have hR : (getReplicaSetPodInfo replicaSet pods).Running
      = (((pods.filter (podBelongsToReplicaSet replicaSet)).filter
          fun pod => pod.Status.Phase == PodPhase.PodRunning).length : Int) := by
    rw [getReplicaSetPodInfo_eq, hff]
    rfl
  have hW : (getReplicaSetPodInfo replicaSet pods).Waiting
      = (((pods.filter (podBelongsToReplicaSet replicaSet)).filter
          fun pod => pod.Status.Phase == PodPhase.PodPending).length : Int) := by
    rw [getReplicaSetPodInfo_eq, hff]
    rfl
  have hF : (getReplicaSetPodInfo replicaSet pods).Failed
      = (((pods.filter (podBelongsToReplicaSet replicaSet)).filter
          fun pod => pod.Status.Phase == PodPhase.PodFailed).length : Int) := by
    rw [getReplicaSetPodInfo_eq, hff]
    rfl
  refine ⟨hR, hW, hF, ?_⟩
  rw [hR, hW, hF]
  exact_mod_cast three_phase_counts_le (pods.filter (podBelongsToReplicaSet replicaSet))

/-- C5: in the assembled record of any replica set, the internal
endpoints are exactly one per matched service — the service's name,
namespace and full port list — in matched-service order, and the
external endpoints are exactly one per load-balancer ingress entry of
each matched service, carrying the service's full port list, in
matched-service order then ingress-list order. -/
theorem endpoints_per_matching_service (services : List Service) (pods : List Pod)
    (replicaSet : ReplicationController) :
    (buildReplicaSet services pods replicaSet).InternalEndpoints
      = (getMatchingServices services replicaSet).map
          (fun service =>
            { Host := service.ObjectMeta.Name
              Namespace := service.ObjectMeta.Namespace
              Ports := service.Spec.Ports }) ∧
    (buildReplicaSet services pods replicaSet).ExternalEndpoints
      = (getMatchingServices services replicaSet).flatMap
          (fun service => service.Status.LoadBalancer.Ingress.map
            fun ing => { Host := ing.IP, Namespace := "", Ports := service.Spec.Ports }) := by
  constructor
  · show (endpointsOfServices (getMatchingServices services replicaSet)).1 = _
    rw [endpointsOfServices_eq]
    simp [internalEndpointOf, getInternalEndpoint]
  · show (endpointsOfServices (getMatchingServices services replicaSet)).2 = _
    rw [endpointsOfServices_eq]
    rfl

/-- C8: the aggregation is total and never partial: it always yields a
present list with exactly one record per input replica set, and empty
input collections yield the empty list, not an error. -/
theorem getReplicaSetList_total (replicaSets : List ReplicationController)
    (services : List Service) (pods : List Pod) :
    (getReplicaSetList replicaSets services pods).ReplicaSets.length
      = replicaSets.length ∧
    (getReplicaSetList [] services pods).ReplicaSets = [] := by
  constructor
  · rw [getReplicaSetList_eq_map, List.length_map]
  · rfl

/-- Counterexample to C9 as stated: re-ordering the service collection
(a permutation of two distinct matching services) changes the field
values of an output record — the internal-endpoint list comes out in
the other order — even though the replica-set input order is unchanged. -/
theorem getReplicaSetList_service_reorder_counterexample :
    List.Perm
      [svcEx "a" "ns" [("app", "x")] [], svcEx "b" "ns" [("app", "x")] []]
      [svcEx "b" "ns" [("app", "x")] [], svcEx "a" "ns" [("app", "x")] []] ∧
    getReplicaSetList [rcEx "rs" "ns" [("app", "x")]]
        [svcEx "a" "ns" [("app", "x")] [], svcEx "b" "ns" [("app", "x")] []] []
      ≠ getReplicaSetList [rcEx "rs" "ns" [("app", "x")]]
        [svcEx "b" "ns" [("app", "x")] [], svcEx "a" "ns" [("app", "x")] []] [] := by
  exact ⟨List.Perm.swap _ _ _, by decide⟩

/-- C9 (amended): the aggregation is a pure function of its inputs;
re-ordering the pod collection leaves the output identical, re-ordering
the replica-set collection permutes the output records accordingly
(record values unchanged, outer order following replica-set input
order), and re-ordering the service collection leaves every field of
every record unchanged except the two endpoint lists, which are
permuted — their order follows the service input order. -/
theorem getReplicaSetList_reorder (replicaSets replicaSets2 : List ReplicationController)
    (services services2 : List Service) (pods pods2 : List Pod) :
    (pods.Perm pods2 →
      getReplicaSetList replicaSets services pods
        = getReplicaSetList replicaSets services pods2) ∧
    (replicaSets.Perm replicaSets2 →
      (getReplicaSetList replicaSets services pods).ReplicaSets.Perm
        (getReplicaSetList replicaSets2 services pods).ReplicaSets) ∧
    (services.Perm services2 → ∀ replicaSet : ReplicationController,
      { buildReplicaSet services pods replicaSet with
          InternalEndpoints := [], ExternalEndpoints := [] }
        = { buildReplicaSet services2 pods replicaSet with
            InternalEndpoints := [], ExternalEndpoints := [] } ∧
      (buildReplicaSet services pods replicaSet).InternalEndpoints.Perm
        (buildReplicaSet services2 pods replicaSet).InternalEndpoints ∧
      (buildReplicaSet services pods replicaSet).ExternalEndpoints.Perm
        (buildReplicaSet services2 pods replicaSet).ExternalEndpoints) := by
  refine ⟨?_, ?_, ?_⟩
  · intro hperm
    have hpi : ∀ rs : ReplicationController,
        getReplicaSetPodInfo rs pods = getReplicaSetPodInfo rs pods2 := by
      intro rs
      rw [getReplicaSetPodInfo_eq, getReplicaSetPodInfo_eq]
      have hc : ∀ ph, matchedPodsWithPhase rs pods ph = matchedPodsWithPhase rs pods2 ph :=
        fun ph => (hperm.filter _).length_eq
    
      simp [hc]
    have hfields : (getReplicaSetList replicaSets services pods).ReplicaSets
        = (getReplicaSetList replicaSets services pods2).ReplicaSets := by
      rw [getReplicaSetList_eq_map, getReplicaSetList_eq_map]
      refine List.map_congr_left fun rs _ => ?_
      simp [buildReplicaSet, hpi]
    exact congrArg ReplicaSetList.mk hfields
  · intro hperm
    rw [getReplicaSetList_eq_map, getReplicaSetList_eq_map]
    exact hperm.map _
  · intro hperm replicaSet
    have hm : (getMatchingServices services replicaSet).Perm
        (getMatchingServices services2 replicaSet) := by
      rw [getMatchingServices_eq_filter, getMatchingServices_eq_filter]
      exact hperm.filter _
    refine ⟨rfl, ?_, ?_⟩
    · have h1 : (buildReplicaSet services pods replicaSet).InternalEndpoints
          = (getMatchingServices services replicaSet).map internalEndpointOf := by
        show (endpointsOfServices _).1 = _
        rw [endpointsOfServices_eq]
      have h2 : (buildReplicaSet services2 pods replicaSet).InternalEndpoints
          = (getMatchingServices services2 replicaSet).map internalEndpointOf := by
        show (endpointsOfServices _).1 = _
        rw [endpointsOfServices_eq]
      rw [h1, h2]
      exact hm.map _
    · have h1 : (buildReplicaSet services pods replicaSet).ExternalEndpoints
          = (getMatchingServices services replicaSet).flatMap externalEndpointsOf := by
        show (endpointsOfServices _).2 = _
        rw [endpointsOfServices_eq]
      have h2 : (buildReplicaSet services2 pods replicaSet).ExternalEndpoints
          = (getMatchingServices services2 replicaSet).flatMap externalEndpointsOf := by
        show (endpointsOfServices _).2 = _
        rw [endpointsOfServices_eq]
      rw [h1, h2]
      exact hm.flatMap_right _

/-- Witness for the amended C9 at concrete inputs: swapping two pods
leaves the output identical; a replica-set list is a permutation of
itself; swapping two services permutes an output record's internal
endpoints. -/
theorem getReplicaSetList_reorder_witness :
    getReplicaSetList [rcEx "rs" "ns" [("app", "x")]] []
        [podEx "p" "ns" [("app", "x")] PodPhase.PodRunning,
         podEx "q" "ns" [("app", "x")] PodPhase.PodPending]
      = getReplicaSetList [rcEx "rs" "ns" [("app", "x")]] []
        [podEx "q" "ns" [("app", "x")] PodPhase.PodPending,
         podEx "p" "ns" [("app", "x")] PodPhase.PodRunning] ∧
    (buildReplicaSet
        [svcEx "a" "ns" [("app", "x")] [], svcEx "b" "ns" [("app", "x")] []] []
        (rcEx "rs" "ns" [("app", "x")])).InternalEndpoints.Perm
      (buildReplicaSet
        [svcEx "b" "ns" [("app", "x")] [], svcEx "a" "ns" [("app", "x")] []] []
        (rcEx "rs" "ns" [("app", "x")])).InternalEndpoints := by
  constructor
  · exact (getReplicaSetList_reorder [rcEx "rs" "ns" [("app", "x")]] [] [] []
      [podEx "p" "ns" [("app", "x")] PodPhase.PodRunning,
       podEx "q" "ns" [("app", "x")] PodPhase.PodPending]
      [podEx "q" "ns" [("app", "x")] PodPhase.PodPending,
       podEx "p" "ns" [("app", "x")] PodPhase.PodRunning]).1
      (List.Perm.swap _ _ _)
  · exact (((getReplicaSetList_reorder [] []
      [svcEx "a" "ns" [("app", "x")] [], svcEx "b" "ns" [("app", "x")] []]
      [svcEx "b" "ns" [("app", "x")] [], svcEx "a" "ns" [("app", "x")] []]
      [] []).2.2 (List.Perm.swap _ _ _) (rcEx "rs" "ns" [("app", "x")])).2.1)

/-- C10: the joins assign no exclusive ownership — here one concrete
service is in the matched-service lists of two distinct replica sets,
and one concrete pod is counted (as running) in both their pod-status
summaries. -/
theorem shared_service_and_pod_across_replica_sets :
    rcEx "rs1" "ns" [("app", "x")] ≠ rcEx "rs2" "ns" [("app", "x")] ∧
    svcEx "s" "ns" [("app", "x")] []
      ∈ getMatchingServices [svcEx "s" "ns" [("app", "x")] []]
          (rcEx "rs1" "ns" [("app", "x")]) ∧
    svcEx "s" "ns" [("app", "x")] []
      ∈ getMatchingServices [svcEx "s" "ns" [("app", "x")] []]
          (rcEx "rs2" "ns" [("app", "x")]) ∧
    (getReplicaSetPodInfo (rcEx "rs1" "ns" [("app", "x")])
        [podEx "p" "ns" [("app", "x")] PodPhase.PodRunning]).Running = 1 ∧
    (getReplicaSetPodInfo (rcEx "rs2" "ns" [("app", "x")])
        [podEx "p" "ns" [("app", "x")] PodPhase.PodRunning]).Running = 1 := by
  decide
